import Mathlib

/-!
# Verification of the winter-weather-tracker snow-event engine

A shallow embedding of the snow-event detection and tracking engine of the
repository (`src/snow_events.py`, plus the text extractor of
`src/storm_analysis.py`), together with theorems settling the frozen claims
about it.

Modelling conventions:
* Python `float` amounts are modelled by `ℚ` (the claims are about order
  comparisons, sums and thresholds, none of which depend on binary rounding).
* Python `datetime.date` values are modelled by their proleptic-Gregorian
  ordinal (`Int`, as returned by `date.toordinal`); conversion functions to
  and from `(year, month, day)` and ISO strings mirror CPython's `datetime`
  implementation.
* Python `round(x, 1)` is modelled by rounding to the nearest tenth
  (`ratRound1`); the half-way tie-breaking direction is immaterial to every
  statement proved here (only monotonicity and the fixed points 0.5 and 1.0
  are used).
* Database state is passed explicitly: the `detected_events` table is a
  `List EventRow`, and the implicit `datetime.now()` read inside
  `find_matching_event_id` / `get_event_history` becomes an explicit `now`
  argument, so that the dependence on the system clock is visible in the
  model.
* `hashlib.md5(...).hexdigest()[:12]` is implemented bit-for-bit (RFC 1321)
  over byte lists, with 32-bit words as `Nat` reduced mod 2^32.
-/

set_option maxRecDepth 100000

namespace WinterWx

/-! ## Calendar dates (CPython `datetime.date` model)

A date is its proleptic Gregorian ordinal (`date.toordinal`), day 1 being
0001-01-01.  `ord2ymd` follows CPython's `_ord2ymd`. -/

abbrev Date := Int

def isLeapYear (y : Nat) : Bool :=
  y % 4 == 0 && (y % 100 != 0 || y % 400 == 0)

/-- Days in the year strictly before month `m` (1-based), for year `y`. -/
def daysBeforeMonth (y m : Nat) : Nat :=
  let base :=
    match m with
    | 1 => 0 | 2 => 31 | 3 => 59 | 4 => 90 | 5 => 120 | 6 => 151
    | 7 => 181 | 8 => 212 | 9 => 243 | 10 => 273 | 11 => 304 | _ => 334
  if 2 < m && isLeapYear y then base + 1 else base

def daysInMonth (y m : Nat) : Nat :=
  if m == 2 then (if isLeapYear y then 29 else 28)
  else if m == 4 || m == 6 || m == 9 || m == 11 then 30
  else 31

/-- `date(y, m, d).toordinal()` for a valid Gregorian triple. -/
def ymdToOrdinal (y m d : Nat) : Date :=
  let p := y - 1
  ((365 * p + p / 4 - p / 100 + p / 400 + daysBeforeMonth y m + d : Nat) : Int)

structure Ymd where
  year : Nat
  month : Nat
  day : Nat
  deriving Repr, DecidableEq

/-- CPython `_ord2ymd`: ordinal back to `(year, month, day)`. -/
def ord2ymd (n : Nat) : Ymd :=
  let n0 := n - 1
  let n400 := n0 / 146097
  let r400 := n0 % 146097
  let n100 := r400 / 36524
  let r100 := r400 % 36524
  let n4 := r100 / 1461
  let r4 := r100 % 1461
  let n1 := r4 / 365
  let r1 := r4 % 365
  let year := 400 * n400 + 100 * n100 + 4 * n4 + n1 + 1
  if n1 == 4 || n100 == 4 then
    ⟨year - 1, 12, 31⟩
  else
    let m := ((List.range 12).map (· + 1)).foldl
      (fun acc mm => if daysBeforeMonth year mm ≤ r1 then mm else acc) 1
    ⟨year, m, r1 - daysBeforeMonth year m + 1⟩

def pad2 (n : Nat) : String :=
  if n < 10 then "0" ++ toString n else toString n

def pad4 (n : Nat) : String :=
  if n < 10 then "000" ++ toString n
  else if n < 100 then "00" ++ toString n
  else if n < 1000 then "0" ++ toString n
  else toString n

/-- `date.isoformat()`: `YYYY-MM-DD`. -/
def isoDate (d : Date) : String :=
  let y := ord2ymd d.toNat
  pad4 y.year ++ "-" ++ pad2 y.month ++ "-" ++ pad2 y.day

/-- `date.weekday()`: Monday = 0. -/
def dateWeekday (d : Date) : Nat := ((d + 6) % 7).toNat

/-! ## MD5 (RFC 1321), as used by `hashlib.md5(key.encode()).hexdigest()[:12]`

32-bit words are `Nat` values reduced mod `2^32`; messages are byte lists.
All recursions are structural so the kernel can evaluate concrete digests. -/

def mask32 : Nat := 4294967295

def not32 (a : Nat) : Nat := mask32 ^^^ a

def rotl32 (x s : Nat) : Nat :=
  ((x <<< s) % 4294967296) ||| (x >>> (32 - s))

/-- Per-round left-rotation amounts. -/
def md5S : List Nat :=
  [7, 12, 17, 22, 7, 12, 17, 22, 7, 12, 17, 22, 7, 12, 17, 22,
   5, 9, 14, 20, 5, 9, 14, 20, 5, 9, 14, 20, 5, 9, 14, 20,
   4, 11, 16, 23, 4, 11, 16, 23, 4, 11, 16, 23, 4, 11, 16, 23,
   6, 10, 15, 21, 6, 10, 15, 21, 6, 10, 15, 21, 6, 10, 15, 21]

/-- Per-round additive constants `floor(2^32 * |sin(i+1)|)`. -/
def md5K : List Nat :=
  [0xd76aa478, 0xe8c7b756, 0x242070db, 0xc1bdceee,
   0xf57c0faf, 0x4787c62a, 0xa8304613, 0xfd469501,
   0x698098d8, 0x8b44f7af, 0xffff5bb1, 0x895cd7be,
   0x6b901122, 0xfd987193, 0xa679438e, 0x49b40821,
   0xf61e2562, 0xc040b340, 0x265e5a51, 0xe9b6c7aa,
   0xd62f105d, 0x02441453, 0xd8a1e681, 0xe7d3fbc8,
   0x21e1cde6, 0xc33707d6, 0xf4d50d87, 0x455a14ed,
   0xa9e3e905, 0xfcefa3f8, 0x676f02d9, 0x8d2a4c8a,
   0xfffa3942, 0x8771f681, 0x6d9d6122, 0xfde5380c,
   0xa4beea44, 0x4bdecfa9, 0xf6bb4b60, 0xbebfbc70,
   0x289b7ec6, 0xeaa127fa, 0xd4ef3085, 0x04881d05,
   0xd9d4d039, 0xe6db99e5, 0x1fa27cf8, 0xc4ac5665,
   0xf4292244, 0x432aff97, 0xab9423a7, 0xfc93a039,
   0x655b59c3, 0x8f0ccc92, 0xffeff47d, 0x85845dd1,
   0x6fa87e4f, 0xfe2ce6e0, 0xa3014314, 0x4e0811a1,
   0xf7537e82, 0xbd3af235, 0x2ad7d2bb, 0xeb86d391]

/-- One MD5 round on state `(a, b, c, d)` with message words `M`. -/
def md5Round (M : List Nat) (st : Nat × Nat × Nat × Nat) (i : Nat) :
    Nat × Nat × Nat × Nat :=
  let a := st.1
  let b := st.2.1
  let c := st.2.2.1
  let d := st.2.2.2
  let fg : Nat × Nat :=
    if i < 16 then ((b &&& c) ||| (not32 b &&& d), i)
    else if i < 32 then ((d &&& b) ||| (not32 d &&& c), (5 * i + 1) % 16)
    else if i < 48 then (b ^^^ c ^^^ d, (3 * i + 5) % 16)
    else (c ^^^ (b ||| not32 d), (7 * i) % 16)
  let f := (fg.1 + a + md5K.getD i 0 + M.getD fg.2 0) % 4294967296
  (d, (b + rotl32 f (md5S.getD i 0)) % 4294967296, b, c)

/-- Little-endian bytes to 32-bit words, four bytes at a time. -/
def bytesToWordsLE : List Nat → List Nat
  | b0 :: b1 :: b2 :: b3 :: rest =>
      (b0 + 256 * (b1 + 256 * (b2 + 256 * b3))) :: bytesToWordsLE rest
  | _ => []

/-- Split a byte list into 64-byte chunks (structural recursion). -/
def chunks64Aux : List Nat → List Nat → List (List Nat)
  | [], acc => if acc.isEmpty then [] else [acc.reverse]
  | b :: rest, acc =>
      if acc.length == 63 then (acc.reverse ++ [b]) :: chunks64Aux rest []
      else chunks64Aux rest (b :: acc)

def chunks64 (l : List Nat) : List (List Nat) := chunks64Aux l []

/-- Process one 64-byte chunk, updating the running state. -/
def md5ProcessChunk (st : Nat × Nat × Nat × Nat) (chunk : List Nat) :
    Nat × Nat × Nat × Nat :=
  let M := bytesToWordsLE chunk
  let r := (List.range 64).foldl (md5Round M) st
  ((st.1 + r.1) % 4294967296, (st.2.1 + r.2.1) % 4294967296,
   (st.2.2.1 + r.2.2.1) % 4294967296, (st.2.2.2 + r.2.2.2) % 4294967296)

/-- 8 little-endian bytes of `n` (the message bit-length field). -/
def le8 (n : Nat) : List Nat :=
  [n % 256, n / 256 % 256, n / 65536 % 256, n / 16777216 % 256,
   n / 4294967296 % 256, n / 1099511627776 % 256,
   n / 281474976710656 % 256, n / 72057594037927936 % 256]

/-- 4 little-endian bytes of a 32-bit word. -/
def le4 (n : Nat) : List Nat :=
  [n % 256, n / 256 % 256, n / 65536 % 256, n / 16777216 % 256]

/-- MD5 digest (16 bytes) of a byte-list message. -/
def md5 (msg : List Nat) : List Nat :=
  let padLen := (120 - (msg.length + 1) % 64) % 64
  let padded := msg ++ 0x80 :: List.replicate padLen 0 ++ le8 ((8 * msg.length) % 18446744073709551616)
  let st := (chunks64 padded).foldl md5ProcessChunk
    (0x67452301, 0xefcdab89, 0x98badcfe, 0x10325476)
  le4 st.1 ++ le4 st.2.1 ++ le4 st.2.2.1 ++ le4 st.2.2.2

def hexChar (n : Nat) : Char :=
  if n < 10 then Char.ofNat (48 + n) else Char.ofNat (87 + n)

def byteToHex (b : Nat) : String :=
  String.mk [hexChar (b / 16), hexChar (b % 16)]

/-- Python string slicing `s[:n]` (first `n` characters). -/
def strTake (s : String) (n : Nat) : String := String.mk (s.data.take n)

/-- `hashlib.md5(s.encode()).hexdigest()` for an ASCII string. -/
def md5Hexdigest (s : String) : String :=
  String.join ((md5 (s.data.map Char.toNat)).map byteToHex)

/-! ## Event identity (`generate_event_id`) -/

/-- `generate_event_id(start_date, end_date, location_id)` of
`src/snow_events.py`: the first 12 hex digits of the MD5 of
`"{location_id}-{start.isoformat()}-{end.isoformat()}"`. -/
def generate_event_id (start_date end_date : Date) (location_id : Int) : String :=
  let key := toString location_id ++ "-" ++ isoDate start_date ++ "-" ++ isoDate end_date
  strTake (md5Hexdigest key) 12

/-! ## Datetimes and NWS timestamp parsing -/

/-- Naive `datetime`: calendar ordinal plus time of day. -/
structure DateTime where
  ordinal : Date
  hour : Nat
  minute : Nat
  second : Nat
  microsecond : Nat
  deriving Repr, DecidableEq

def digitsToNat (ds : List Char) : Nat :=
  ds.foldl (fun a c => 10 * a + (c.toNat - 48)) 0

def twoDigits (c1 c2 : Char) : Nat := (c1.toNat - 48) * 10 + (c2.toNat - 48)

/-- A UTC-offset / `Z` suffix as accepted by `datetime.fromisoformat`
(Python ≥ 3.11): empty, `Z`, or `±HH[:MM[:SS]]`. -/
def validOffsetChars : List Char → Bool
  | [] => true
  | ['Z'] => true
  | ['z'] => true
  | sgn :: o1 :: o2 :: rest =>
      (sgn == '+' || sgn == '-') && o1.isDigit && o2.isDigit &&
      twoDigits o1 o2 < 24 &&
      (match rest with
       | [] => true
       | ':' :: m1 :: m2 :: rest2 =>
           m1.isDigit && m2.isDigit && twoDigits m1 m2 < 60 &&
           (match rest2 with
            | [] => true
            | ':' :: s1 :: s2 :: [] => s1.isDigit && s2.isDigit && twoDigits s1 s2 < 60
            | _ => false)
       | _ => false)
  | _ => false

/-- Time-of-day part `HH:MM[:SS[.ffffff]][offset]` of an ISO string
(`(hour, minute, second, microsecond)`; the offset is validated and
discarded, matching how the engine only ever uses the local fields). -/
def parseTimeChars (cs : List Char) : Option (Nat × Nat × Nat × Nat) :=
  match cs with
  | h1 :: h2 :: ':' :: m1 :: m2 :: rest =>
    if h1.isDigit && h2.isDigit && m1.isDigit && m2.isDigit then
      let hh := twoDigits h1 h2
      let mi := twoDigits m1 m2
      if hh < 24 && mi < 60 then
        match rest with
        | ':' :: s1 :: s2 :: rest2 =>
          if s1.isDigit && s2.isDigit then
            let ss := twoDigits s1 s2
            if ss < 60 then
              match rest2 with
              | '.' :: fs =>
                let fds := fs.takeWhile (fun c => c.isDigit)
                let off := fs.dropWhile (fun c => c.isDigit)
                if 1 ≤ fds.length && fds.length ≤ 6 && validOffsetChars off then
                  some (hh, mi, ss, digitsToNat fds * 10 ^ (6 - fds.length))
                else none
              | off => if validOffsetChars off then some (hh, mi, ss, 0) else none
            else none
          else none
        | off => if validOffsetChars off then some (hh, mi, 0, 0) else none
      else none
    else none
  | _ => none

/-- `datetime.fromisoformat` on the extended `YYYY-MM-DD[THH:MM...]` formats
(the forms the NWS feed produces); anything else is a parse failure. -/
def fromisoformat (s : String) : Option DateTime :=
  match s.data with
  | y1 :: y2 :: y3 :: y4 :: '-' :: m1 :: m2 :: '-' :: d1 :: d2 :: rest =>
    if y1.isDigit && y2.isDigit && y3.isDigit && y4.isDigit &&
       m1.isDigit && m2.isDigit && d1.isDigit && d2.isDigit then
      let y := digitsToNat [y1, y2, y3, y4]
      let m := twoDigits m1 m2
      let d := twoDigits d1 d2
      if 1 ≤ y && 1 ≤ m && m ≤ 12 && 1 ≤ d && d ≤ daysInMonth y m then
        match rest with
        | [] => some ⟨ymdToOrdinal y m d, 0, 0, 0, 0⟩
        | sep :: trest =>
          if sep == 'T' || sep == ' ' then
            (parseTimeChars trest).map fun t =>
              ⟨ymdToOrdinal y m d, t.1, t.2.1, t.2.2.1, t.2.2.2⟩
          else none
      else none
    else none
  | _ => none

def countChar (s : String) (c : Char) : Nat :=
  s.data.countP (fun x => x == c)

def charListContains (s : String) (c : Char) : Bool :=
  s.data.any (fun x => x == c)

/-- `s.split(c)[0]`: everything before the first occurrence of `c`. -/
def beforeChar (c : Char) (s : String) : String :=
  String.mk (s.data.takeWhile (fun x => x != c))

/-- `s.rsplit(c, 1)` when `c` occurs: the parts before and after the last
occurrence (whole string and `""` when it does not occur). -/
def rsplitLast (c : Char) (s : String) : String × String :=
  let rev := s.data.reverse
  let afterRev := rev.takeWhile (fun x => x != c)
  match rev.dropWhile (fun x => x != c) with
  | _ :: beforeRev => (String.mk beforeRev.reverse, String.mk afterRev.reverse)
  | [] => (s, "")

/-- `parse_nws_datetime(time_str)` of `src/snow_events.py`: strip a `/PT6H`
style duration suffix and an explicit timezone offset, then parse; `None`
on failure. -/
def parse_nws_datetime (time_str : String) : Option DateTime :=
  if time_str = "" then none
  else
    let ts := if charListContains time_str '/' then beforeChar '/' time_str else time_str
    let ts :=
      if charListContains ts '+' || 2 < countChar ts '-' then
        if charListContains ts '+' then (rsplitLast '+' ts).1
        else
          let parts := rsplitLast '-' ts
          if charListContains parts.2 ':' && parts.2.data.length == 5 then parts.1
          else ts
      else ts
    fromisoformat ts

/-! ## Period-name date resolution (`extract_date_from_period_name`) -/

/-- ASCII lowercasing (`str.lower()`; the NWS narrative text is ASCII). -/
def strLower (s : String) : String := String.mk (s.data.map Char.toLower)

def pyStrip (cs : List Char) : List Char :=
  ((cs.dropWhile pyIsSpaceStrip).reverse.dropWhile pyIsSpaceStrip).reverse
where pyIsSpaceStrip (c : Char) : Bool :=
  c == ' ' || c == '\t' || c == '\n' || c == '\r' || c.toNat == 11 || c.toNat == 12

/-- Python substring test `needle in hay` on char lists. -/
def containsSub (hay needle : List Char) : Bool :=
  match hay with
  | [] => needle.isEmpty
  | _ :: t => needle.isPrefixOf hay || containsSub t needle

def strContains (hay needle : String) : Bool := containsSub hay.data needle.data

def dayNameMap : List (String × Nat) :=
  [("monday", 0), ("tuesday", 1), ("wednesday", 2), ("thursday", 3),
   ("friday", 4), ("saturday", 5), ("sunday", 6)]

/-- `extract_date_from_period_name(period_name, as_of_date)` of
`src/snow_events.py`. -/
def extract_date_from_period_name (period_name : String) (as_of_date : Date) :
    Option Date :=
  let name := String.mk (pyStrip (strLower period_name).data)
  if ["today", "tonight", "this afternoon", "this morning"].any
      (fun x => strContains name x) then
    some as_of_date
  else
    match dayNameMap.find? (fun p => strContains name p.1) with
    | some p =>
      let daysAhead : Int := (p.2 : Int) - (dateWeekday as_of_date : Int)
      let daysAhead := if daysAhead ≤ 0 then daysAhead + 7 else daysAhead
      some (as_of_date + daysAhead)
    | none => none

/-! ## Text amount extraction

The source matches, in priority order, the regexes
`(\d+(?:\.\d+)?)\s*(?:to|-)\s*(\d+(?:\.\d+)?)\s*inch`,
`(?:around|about|near)\s*(\d+(?:\.\d+)?)\s*inch` and
`(\d+(?:\.\d+)?)\s*inch` (the `storm_analysis.py` copy uses `(?:inch|")` as
the unit).  Each matcher below is the pattern's semantics written out
directly: `re.search` is a scan for the leftmost matching position, and at a
fixed position these patterns are deterministic (greedy number / whitespace
munching never needs to backtrack, and the literal alternatives are mutually
exclusive), so the scan below computes exactly the Python match. -/

def pyIsSpace (c : Char) : Bool :=
  c == ' ' || c == '\t' || c == '\n' || c == '\r' ||
  c.toNat == 11 || c.toNat == 12

/-- Greedy `\d+(?:\.\d+)?`: the parsed value and the rest of the input. -/
def munchNumber (cs : List Char) : Option (ℚ × List Char) :=
  let ds := cs.takeWhile (fun c => c.isDigit)
  if ds.isEmpty then none
  else
    let whole : ℚ := (digitsToNat ds : ℚ)
    let rest := cs.dropWhile (fun c => c.isDigit)
    match rest with
    | '.' :: rest2 =>
      let fs := rest2.takeWhile (fun c => c.isDigit)
      if fs.isEmpty then some (whole, rest)
      else some (whole + (digitsToNat fs : ℚ) / (10 ^ fs.length : ℚ),
                 rest2.dropWhile (fun c => c.isDigit))
    | _ => some (whole, rest)

def skipSpaces (cs : List Char) : List Char := cs.dropWhile pyIsSpace

/-- Unit token of the `snow_events.py` patterns: the literal `inch`. -/
def unitInch (cs : List Char) : Bool := "inch".data.isPrefixOf cs

/-- Unit token of the `storm_analysis.py` patterns: `(?:inch|")`. -/
def unitInchOrQuote (cs : List Char) : Bool :=
  "inch".data.isPrefixOf cs || "\"".data.isPrefixOf cs

/-- `X to Y <unit>` / `X-Y <unit>` anchored at the current position. -/
def matchRangeAt (unit : List Char → Bool) (cs : List Char) : Option (ℚ × ℚ) :=
  match munchNumber cs with
  | none => none
  | some (x, r1) =>
    let r2 := skipSpaces r1
    let sep : Option (List Char) :=
      match r2 with
      | 't' :: 'o' :: r3 => some r3
      | '-' :: r3 => some r3
      | _ => none
    match sep with
    | none => none
    | some r3 =>
      match munchNumber (skipSpaces r3) with
      | none => none
      | some (y, r5) => if unit (skipSpaces r5) then some (x, y) else none

/-- `around/about/near X <unit>` anchored at the current position. -/
def matchAroundAt (unit : List Char → Bool) (cs : List Char) : Option ℚ :=
  let afterHedge : Option (List Char) :=
    if "around".data.isPrefixOf cs then some (cs.drop 6)
    else if "about".data.isPrefixOf cs then some (cs.drop 5)
    else if "near".data.isPrefixOf cs then some (cs.drop 4)
    else none
  match afterHedge with
  | none => none
  | some r1 =>
    match munchNumber (skipSpaces r1) with
    | none => none
    | some (x, r2) => if unit (skipSpaces r2) then some x else none

/-- `X <unit>` anchored at the current position. -/
def matchSingleAt (unit : List Char → Bool) (cs : List Char) : Option ℚ :=
  match munchNumber cs with
  | none => none
  | some (x, r1) => if unit (skipSpaces r1) then some x else none

/-- `re.search`: try the anchored matcher at each position, left to right. -/
def searchPos {α : Type} (m : List Char → Option α) : List Char → Option α
  | [] => m []
  | c :: rest =>
    match m (c :: rest) with
    | some r => some r
    | none => searchPos m rest

/-- `extract_snow_amounts_from_text(text)` of `src/snow_events.py`.  Note
that both single-number patterns (the hedge pattern included) yield a single
regex group and hence the `(0.8x, 1.2x)` branch of the source. -/
def extract_snow_amounts_from_text (text : String) : Option ℚ × Option ℚ :=
  if text = "" then (none, none)
  else
    let t := (strLower text).data
    match searchPos (matchRangeAt unitInch) t with
    | some (x, y) => (some x, some y)
    | none =>
    match searchPos (matchAroundAt unitInch) t with
    | some x => (some (x * (4/5)), some (x * (6/5)))
    | none =>
    match searchPos (matchSingleAt unitInch) t with
    | some x => (some (x * (4/5)), some (x * (6/5)))
    | none =>
    if containsSub t "heavy snow".data || containsSub t "significant snow".data then
      (some 6, some 12)
    else if containsSub t "moderate snow".data then (some 3, some 6)
    else if containsSub t "light snow".data || containsSub t "flurries".data then
      (some (1/2), some 2)
    else if containsSub t "snow".data then (some 1, some 4)
    else (none, none)

namespace StormAnalysis

/-- `extract_snow_amounts_from_text(text)` of `src/storm_analysis.py`: same
range pattern (with `(?:inch|")`), but `around X` yields `(X-1, X+1)` and a
bare `X` yields `(X, X)`; no qualitative fallback. -/
def extract_snow_amounts_from_text (text : String) : Option ℚ × Option ℚ :=
  if text = "" then (none, none)
  else
    let t := (strLower text).data
    match searchPos (matchRangeAt unitInchOrQuote) t with
    | some (x, y) => (some x, some y)
    | none =>
    match searchPos (matchAroundAt unitInchOrQuote) t with
    | some x => (some (x - 1), some (x + 1))
    | none =>
    match searchPos (matchSingleAt unitInchOrQuote) t with
    | some x => (some x, some x)
    | none => (none, none)

end StormAnalysis

/-! ## Confidence classifier (`get_confidence_for_lead_time`) -/

inductive EventConfidence where
  | veryHigh | high | moderate | low | veryLow
  deriving Repr, DecidableEq

/-- `get_confidence_for_lead_time(hours)` of `src/snow_events.py`.
`lead_time_hours` is clamped to `max(0, _)` before this is called, so the
argument is a `Nat`. -/
def get_confidence_for_lead_time (hours : Nat) : EventConfidence :=
  if hours ≤ 36 then .veryHigh
  else if hours ≤ 60 then .high
  else if hours ≤ 96 then .moderate
  else if hours ≤ 144 then .low
  else .veryLow

/-! ## Gridpoint extraction (`extract_snow_from_gridpoint_by_date`) -/

/-- One entry of `properties.snowfallAmount.values`; a JSON `null` (or
absent) `value` is `none`, an absent `validTime` is `""`. -/
structure GridpointEntry where
  validTime : String
  value : Option ℚ
  deriving Repr, DecidableEq

/-- The gridpoint payload reduced to the only path the code reads
(`properties.snowfallAmount.values`, each missing level defaulting to
empty). -/
structure GridpointData where
  values : List GridpointEntry
  deriving Repr, DecidableEq

structure GpPeriod where
  dt : DateTime
  amount : ℚ
  hour : Nat
  deriving Repr, DecidableEq

/-- Per-day record built by the gridpoint extractor. -/
structure GpDay where
  total : ℚ
  periods : List GpPeriod
  minHour : Nat
  maxHour : Nat
  deriving Repr, DecidableEq

/-- Insert-or-update on an association list, preserving first-insertion
order (the Python `dict`). -/
def upsert {V : Type} (d : Date) (f : V → V) (init : V) :
    List (Date × V) → List (Date × V)
  | [] => [(d, f init)]
  | (k, v) :: rest =>
      if k = d then (k, f v) :: rest else (k, v) :: upsert d f init rest

def emptyGpDay : GpDay := ⟨0, [], 24, 0⟩

/-- One loop iteration of `extract_snow_from_gridpoint_by_date`. -/
def gpStep (m : List (Date × GpDay)) (entry : GridpointEntry) :
    List (Date × GpDay) :=
  match entry.value with
  | none => m
  | some v =>
    if v ≤ 0 then m
    else
      match parse_nws_datetime entry.validTime with
      | none => m
      | some dt =>
        let inches := v / (127 / 5)
        upsert dt.ordinal (fun day =>
          { total := day.total + inches
            periods := day.periods ++ [⟨dt, inches, dt.hour⟩]
            minHour := min day.minHour dt.hour
            maxHour := max day.maxHour dt.hour }) emptyGpDay m

/-- `extract_snow_from_gridpoint_by_date(gridpoint_data, as_of_datetime)` of
`src/snow_events.py` (the `as_of_datetime` argument is unused by the
source). -/
def extract_snow_from_gridpoint_by_date (g : GridpointData)
    (_as_of_datetime : DateTime) : List (Date × GpDay) :=
  g.values.foldl gpStep []

/-! ## Forecast-text extraction (`extract_snow_from_forecast_text`) -/

structure ForecastPeriod where
  name : String
  detailedForecast : String
  shortForecast : String
  startTime : String
  deriving Repr, DecidableEq

/-- The forecast payload reduced to the only path the code reads
(`forecast.properties.periods`). -/
structure ForecastData where
  periods : List ForecastPeriod
  deriving Repr, DecidableEq

/-- Per-day record built by the text extractor. -/
structure TxDay where
  total : ℚ
  low : ℚ
  high : ℚ
  text : List (String × String)
  hasIce : Bool
  hasWind : Bool
  deriving Repr, DecidableEq

def emptyTxDay : TxDay := ⟨0, 0, 0, [], false, false⟩

/-- True when the period's detailed forecast mentions snow at all
(`'snow' / 'flurries' / 'wintry'` substring of the lower-cased text). -/
def mentionsSnow (detailed : String) : Bool :=
  let dl := (strLower detailed).data
  containsSub dl "snow".data || containsSub dl "flurries".data ||
    containsSub dl "wintry".data

def mentionsIce (detailed : String) : Bool :=
  let dl := (strLower detailed).data
  containsSub dl "ice".data || containsSub dl "freezing rain".data ||
    containsSub dl "sleet".data

def mentionsWind (detailed : String) : Bool :=
  let dl := (strLower detailed).data
  containsSub dl "wind".data || containsSub dl "gusts".data ||
    containsSub dl "blustery".data || containsSub dl "blowing".data

/-- The date the source assigns to a period: parse `startTime`, else resolve
the period name against the as-of date. -/
def periodDate (period : ForecastPeriod) (as_of_date : Date) : Option Date :=
  match parse_nws_datetime period.startTime with
  | some dt => some dt.ordinal
  | none => extract_date_from_period_name period.name as_of_date

/-- One loop iteration of `extract_snow_from_forecast_text`.  Note the
Python truthiness of `if low and high:`: the range update is skipped when
either bound is `None` *or zero*. -/
def txStep (as_of_date : Date) (m : List (Date × TxDay))
    (period : ForecastPeriod) : List (Date × TxDay) :=
  if !(mentionsSnow period.detailedForecast) then m
  else
    match periodDate period as_of_date with
    | none => m
    | some pd =>
      let lh := extract_snow_amounts_from_text period.detailedForecast
      upsert pd (fun day0 =>
        let day :=
          match lh with
          | (some low, some high) =>
            if low ≠ 0 ∧ high ≠ 0 then
              { day0 with
                low := max day0.low low
                high := max day0.high high
                total := max day0.total ((low + high) / 2) }
            else day0
          | _ => day0
        { day with
          text := day.text ++ [(period.name, period.detailedForecast)]
          hasIce := day.hasIce || mentionsIce period.detailedForecast
          hasWind := day.hasWind || mentionsWind period.detailedForecast })
        emptyTxDay m

/-- `extract_snow_from_forecast_text(forecast_data, as_of_date)` of
`src/snow_events.py`. -/
def extract_snow_from_forecast_text (f : ForecastData) (as_of_date : Date) :
    List (Date × TxDay) :=
  f.periods.foldl (txStep as_of_date) []

/-! ## Snapshot store (`detected_events` table) and the identity resolver -/

/-- One row of the `detected_events` table (the columns the engine reads).
`detected_at` is an instant on the same axis as the wall clock (the ISO-text
column compares chronologically). -/
structure EventRow where
  location_id : Int
  event_id : String
  detected_at : Int
  start_date : Date
  end_date : Date
  snow_best : ℚ
  confidence : String
  deriving Repr, DecidableEq

/-- Key-first deduplication of `SELECT DISTINCT event_id, start_date,
end_date` (first occurrence in table order is kept, as observed from
SQLite). -/
def distinctTriples (seen : List (String × Date × Date)) :
    List EventRow → List EventRow
  | [] => []
  | r :: rest =>
    if seen.contains (r.event_id, r.start_date, r.end_date) then
      distinctTriples seen rest
    else
      r :: distinctTriples ((r.event_id, r.start_date, r.end_date) :: seen) rest

def insertByDetectedDesc (r : EventRow) : List EventRow → List EventRow
  | [] => [r]
  | x :: xs =>
      if x.detected_at < r.detected_at then r :: x :: xs
      else x :: insertByDetectedDesc r xs

/-- `ORDER BY detected_at DESC` (ties keep their prior relative order; the
claims below never depend on tie order, which SQLite leaves unspecified). -/
def sortByDetectedDesc (rows : List EventRow) : List EventRow :=
  rows.foldr insertByDetectedDesc []

/-- The result rows of the resolver's query: filter by location and the
7-day cutoff, deduplicate the selected triple, order by `detected_at`
descending. -/
def queryRecentEvents (store : List EventRow) (now : Int) (location_id : Int)
    (days_back : Int) : List EventRow :=
  let cutoff := now - days_back * 86400
  sortByDetectedDesc (distinctTriples []
    (store.filter fun r => r.location_id == location_id && cutoff ≤ r.detected_at))

/-- Date-range overlap test of the resolver: at least one shared day. -/
def overlapsCandidate (start_date end_date : Date) (r : EventRow) : Bool :=
  let overlap_start := max start_date r.start_date
  let overlap_end := min end_date r.end_date
  1 ≤ overlap_end - overlap_start + 1

/-- `find_matching_event_id(location_id, start_date, end_date, days_back)`
of `src/snow_events.py`.  The store contents and the `datetime.now()` read
are explicit arguments (`store`, `now`). -/
def find_matching_event_id (store : List EventRow) (now : Int)
    (location_id : Int) (start_date end_date : Date) (days_back : Int := 7) :
    Option String :=
  ((queryRecentEvents store now location_id days_back).find?
    (overlapsCandidate start_date end_date)).map (·.event_id)

/-- The identity given to a candidate event (lines 530–535 of
`src/snow_events.py`): reuse the first overlapping stored identity when the
lookup finds one (Python truthiness: an empty stored identity string is
discarded), else mint `generate_event_id`. -/
def resolveEventId (store : List EventRow) (now : Int) (location_id : Int)
    (start_date end_date : Date) : String :=
  match find_matching_event_id store now location_id start_date end_date with
  | some eid =>
      if eid = "" then generate_event_id start_date end_date location_id else eid
  | none => generate_event_id start_date end_date location_id

/-! ## Rounding (`round(x, 1)`) -/

/-- Python's `round(x, 1)` idealized over `ℚ`: round to the nearest tenth.
Only monotonicity and the fixed points at multiples of 1/10 are ever used,
so the half-way tie-breaking direction (banker's in Python, half-up here)
is immaterial to every theorem below. -/
def ratRound1 (q : ℚ) : ℚ := ((round (q * 10) : ℤ) : ℚ) / 10

/-! ## Event segmentation (`identify_snow_events`, grouping loop) -/

/-- The grouping loop of `identify_snow_events`: `init ++ [last]` is the
current run (`current_event_dates`), `last` its most recent date. -/
def segmentAux (init : List Date) (last : Date) : List Date → List (List Date)
  | [] => [init ++ [last]]
  | d :: rest =>
      if d - last ≤ 1 then segmentAux (init ++ [last]) d rest
      else (init ++ [last]) :: segmentAux [] d rest

/-- Group a sorted date list into maximal runs with gaps of at most one day
— the loop of `src/snow_events.py` lines 444–472 before event creation. -/
def segmentRuns : List Date → List (List Date)
  | [] => []
  | d :: rest => segmentAux [] d rest

/-! ## Daily signal merging (`identify_snow_events`, lines 414–442) -/

/-- One merged per-day record of `daily_data`. -/
structure DayRecord where
  total : ℚ
  low : ℚ
  high : ℚ
  gridpoint : Option GpDay
  text : Option TxDay
  hasIce : Bool
  hasWind : Bool
  sources : List String
  deriving Repr, DecidableEq

/-- Strictly ascending list of the distinct dates of both extractors
(`sorted(set(gridpoint) | set(text))`). -/
def sortedDates (ds : List Date) : List Date :=
  (ds.dedup).insertionSort (· ≤ ·)

/-- The merge step for one date `d` on or after the as-of date: `none` when
the day does not qualify.  `snow_total` is Python's
`gp.get('total', 0) or tx.get('total', 0)`; the qualification test is
`snow_total >= min_snow_threshold or snow_low` with float truthiness. -/
def mergedSnowTotal (gp : List (Date × GpDay)) (tx : List (Date × TxDay))
    (d : Date) : ℚ :=
  let gpTotal : ℚ := match gp.lookup d with | some g => g.total | none => 0
  let txTotal : ℚ := match tx.lookup d with | some t => t.total | none => 0
  if gpTotal ≠ 0 then gpTotal else txTotal

/-- `snow_low = tx.get('low', snow_total * 0.7)`: the text extractor's low
bound when the day has a text signal (the key is always present then), else
the 0.7 fallback. -/
def mergedSnowLow (gp : List (Date × GpDay)) (tx : List (Date × TxDay))
    (d : Date) : ℚ :=
  match tx.lookup d with
  | some t => t.low
  | none => mergedSnowTotal gp tx d * (7/10)

def mergedSnowHigh (gp : List (Date × GpDay)) (tx : List (Date × TxDay))
    (d : Date) : ℚ :=
  match tx.lookup d with
  | some t => t.high
  | none => mergedSnowTotal gp tx d * (13/10)

def mergeDay (gp : List (Date × GpDay)) (tx : List (Date × TxDay))
    (min_snow_threshold : ℚ) (d : Date) : Option DayRecord :=
  let gpo := gp.lookup d
  let txo := tx.lookup d
  let snow_total := mergedSnowTotal gp tx d
  let snow_low := mergedSnowLow gp tx d
  let snow_high := mergedSnowHigh gp tx d
  if min_snow_threshold ≤ snow_total ∨ snow_low ≠ 0 then
    some
      { total := snow_total
        low := if snow_low ≠ 0 then snow_low else snow_total * (7/10)
        high := if snow_high ≠ 0 then snow_high else snow_total * (13/10)
        gridpoint := gpo
        text := txo
        hasIce := match txo with | some t => t.hasIce | none => false
        hasWind := match txo with | some t => t.hasWind | none => false
        sources :=
          (if gpo.isSome then ["gridpoint"] else []) ++
          (if txo.isSome then ["forecast_text"] else []) }
  else none

/-- `daily_data` of `identify_snow_events`: merged qualifying records keyed
by date, in ascending date order. -/
def buildDailyData (gp : List (Date × GpDay)) (tx : List (Date × TxDay))
    (as_of_date : Date) (min_snow_threshold : ℚ) : List (Date × DayRecord) :=
  (sortedDates (gp.map Prod.fst ++ tx.map Prod.fst)).filterMap fun d =>
    if d < as_of_date then none
    else (mergeDay gp tx min_snow_threshold d).map (fun rec => (d, rec))

/-! ## Event creation (`create_event_from_dates`) -/

structure SnowEvent where
  event_id : String
  start_date : Date
  end_date : Date
  start_datetime : DateTime
  end_datetime : DateTime
  snow_total_low : ℚ
  snow_total_high : ℚ
  snow_total_best : ℚ
  snow_by_date : List (String × ℚ)
  duration_hours : Nat
  has_ice : Bool
  has_wind : Bool
  sources : List String
  confidence : EventConfidence
  lead_time_hours : Nat
  /-- The source stores `as_of_datetime.isoformat()`; the instant itself is
  kept here (the string is a bijective rendering of it). -/
  first_detected : DateTime
  detection_count : Nat
  key_details : String
  deriving Repr, DecidableEq

def defaultDayRecord : DayRecord :=
  ⟨0, 0, 0, none, none, false, false, []⟩

def dtToSeconds (dt : DateTime) : ℚ :=
  (dt.ordinal : ℚ) * 86400 + dt.hour * 3600 + dt.minute * 60 + dt.second +
    (dt.microsecond : ℚ) / 1000000

/-- `max(0, int((start_datetime - as_of).total_seconds() / 3600))`; for the
values surviving the outer `max(0, _)`, `int` truncation and floor agree. -/
def leadTimeHours (start_datetime as_of : DateTime) : Nat :=
  (⌊(dtToSeconds start_datetime - dtToSeconds as_of) / 3600⌋).toNat

/-- `create_event_from_dates(event_dates, daily_data, as_of_datetime,
location_id)` of `src/snow_events.py`; the snapshot store and clock feed the
embedded `find_matching_event_id` call. -/
def create_event_from_dates (event_dates : List Date)
    (daily : List (Date × DayRecord)) (as_of_datetime : DateTime)
    (location_id : Int) (store : List EventRow) (now : Int) :
    Option SnowEvent :=
  match event_dates with
  | [] => none
  | d0 :: drest =>
    let rec_ := fun d => (daily.lookup d).getD defaultDayRecord
    let start_date := drest.foldl min d0
    let end_date := drest.foldl max d0
    let snow_total := (event_dates.map fun d => (rec_ d).total).sum
    let snow_low := (event_dates.map fun d => (rec_ d).low).sum
    let snow_high := (event_dates.map fun d => (rec_ d).high).sum
    if snow_total < 1/2 ∧ snow_high < 1 then none
    else
      let snow_by_date := event_dates.map fun d => (isoDate d, (rec_ d).total)
      let has_ice := event_dates.any fun d => (rec_ d).hasIce
      let has_wind := event_dates.any fun d => (rec_ d).hasWind
      let all_sources := (event_dates.flatMap fun d => (rec_ d).sources).dedup
      let start_datetime : DateTime := ⟨start_date, 0, 0, 0, 0⟩
      let lead_time_hours := leadTimeHours start_datetime as_of_datetime
      let confidence := get_confidence_for_lead_time lead_time_hours
      let duration_hours := event_dates.length * 18
      let key_details :=
        (event_dates.flatMap fun d =>
          match (rec_ d).text with
          | some t => t.text
          | none => []).foldl
          (fun acc t => if acc.length < t.2.length then t.2 else acc) ""
      let event_id := resolveEventId store now location_id start_date end_date
      some
        { event_id := event_id
          start_date := start_date
          end_date := end_date
          start_datetime := start_datetime
          end_datetime := ⟨end_date, 23, 59, 59, 0⟩
          snow_total_low := ratRound1 snow_low
          snow_total_high := ratRound1 snow_high
          snow_total_best := ratRound1 snow_total
          snow_by_date := snow_by_date
          duration_hours := duration_hours
          has_ice := has_ice
          has_wind := has_wind
          sources := all_sources
          confidence := confidence
          lead_time_hours := lead_time_hours
          first_detected := as_of_datetime
          detection_count := 1
          key_details := strTake key_details 500 }

/-! ## The detection pass (`identify_snow_events`) -/

/-- The forecast payload: the two sub-payloads the detection pass reads. -/
structure ForecastPayload where
  gridpoint : GridpointData
  forecast : ForecastData
  deriving Repr, DecidableEq

/-- `identify_snow_events(forecast_data, as_of_datetime, location_id,
min_snow_threshold)` of `src/snow_events.py`, with the snapshot store and
the `datetime.now()` value read inside the resolver made explicit. -/
def identify_snow_events (payload : ForecastPayload) (as_of_datetime : DateTime)
    (location_id : Int) (store : List EventRow) (now : Int)
    (min_snow_threshold : ℚ := 1/2) : List SnowEvent :=
  let as_of_date := as_of_datetime.ordinal
  let gp := extract_snow_from_gridpoint_by_date payload.gridpoint as_of_datetime
  let tx := extract_snow_from_forecast_text payload.forecast as_of_date
  let daily := buildDailyData gp tx as_of_date min_snow_threshold
  (segmentRuns (daily.map Prod.fst)).filterMap fun run =>
    create_event_from_dates run daily as_of_datetime location_id store now

/-! ## History and trend (`get_event_history`, `get_event_trend`) -/

def insertByDetectedAsc (r : EventRow) : List EventRow → List EventRow
  | [] => [r]
  | x :: xs =>
      if r.detected_at < x.detected_at then r :: x :: xs
      else x :: insertByDetectedAsc r xs

/-- `get_event_history(location_id, event_id, days_back)` of
`src/snow_events.py`: the rows for one identity inside the lookback window,
ordered by `detected_at` ascending.  As in the resolver, the
`datetime.now()` read is the explicit `now` argument. -/
def get_event_history (store : List EventRow) (now : Int) (location_id : Int)
    (event_id : String) (days_back : Int := 7) : List EventRow :=
  let cutoff := now - days_back * 86400
  (store.filter fun r =>
      r.location_id == location_id && r.event_id == event_id &&
      cutoff ≤ r.detected_at).foldr insertByDetectedAsc []

/-- Result of `get_event_trend`: either the `insufficient_data` dict or the
full trend dict (human-readable `message` strings are presentation only and
not modelled). -/
inductive TrendResult where
  | insufficientData
  | trendData (direction : String) (firstAmount latestAmount change : ℚ)
      (numDetections : Nat) (histPoints : List (Int × ℚ × String))
  deriving Repr, DecidableEq

/-- `result['direction']` of a trend result. -/
def TrendResult.direction : TrendResult → String
  | .insufficientData => "insufficient_data"
  | .trendData d _ _ _ _ _ => d

/-- `result.get('change')`: absent on the insufficient-data dict. -/
def TrendResult.changeVal : TrendResult → Option ℚ
  | .insufficientData => none
  | .trendData _ _ _ c _ _ => some c

/-- `get_event_trend(history)` of `src/snow_events.py`. -/
def get_event_trend (history : List EventRow) : TrendResult :=
  if history.length < 2 then .insufficientData
  else
    match history with
    | [] => .insufficientData
    | first :: _ =>
      let latest := (history.getLast?).getD first
      let change := latest.snow_best - first.snow_best
      let direction :=
        if 1 < change then "increasing"
        else if change < -1 then "decreasing"
        else "steady"
      .trendData direction first.snow_best latest.snow_best change
        history.length
        (history.map fun h => (h.detected_at, h.snow_best, h.confidence))

/-! ## Concrete sample data (payloads, store rows, instants)

Used by closed witness/counterexample theorems; all values are realistic NWS
shapes (`value` is millimeters: 11.43 mm = 0.45 in, 7.62 mm = 0.3 in,
50.8 mm = 2 in, 76.2 mm = 3 in). -/

def asOfJan13 : DateTime := ⟨ymdToOrdinal 2026 1 13, 0, 0, 0, 0⟩

/-- Gridpoint-only payload: 0.45 in on Jan 15 and on Jan 16. -/
def payloadHalfDays : ForecastPayload :=
  ⟨⟨[⟨"2026-01-15T06:00:00+00:00", some (1143/100)⟩,
     ⟨"2026-01-16T06:00:00+00:00", some (1143/100)⟩]⟩, ⟨[]⟩⟩

/-- Gridpoint-only payload: a single 0.3 in day (Jan 15). -/
def payloadPoint3 : ForecastPayload :=
  ⟨⟨[⟨"2026-01-15T06:00:00+00:00", some (381/50)⟩]⟩, ⟨[]⟩⟩

/-- Gridpoint-only payload: 2 in on Jan 15 and 3 in on Jan 20 (two storms
separated by a 4-day dry gap). -/
def payloadTwoStorms : ForecastPayload :=
  ⟨⟨[⟨"2026-01-15T06:00:00+00:00", some (254/5)⟩,
     ⟨"2026-01-20T06:00:00+00:00", some (381/5)⟩]⟩, ⟨[]⟩⟩

/-- The two extractor outputs for `payloadPoint3` at the Jan 13 as-of. -/
def gpPoint3 : List (Date × GpDay) :=
  extract_snow_from_gridpoint_by_date payloadPoint3.gridpoint asOfJan13

def txPoint3 : List (Date × TxDay) :=
  extract_snow_from_forecast_text payloadPoint3.forecast asOfJan13.ordinal

/-- A stored detection of `[Jan 10, Jan 12]` for location 1, detected at
instant 0. -/
def rowJan10to12 : EventRow :=
  ⟨1, "aaa000000000", 0, ymdToOrdinal 2026 1 10, ymdToOrdinal 2026 1 12, 6, "High"⟩

/-- A stored row whose identity is the hash of the key
`1-2026-01-20-2026-01-22` but whose stored range has drifted to
`[Jan 10, Jan 12]` (each fetch only needs 1-day overlap with the previous
row, and old rows age out of the 7-day window, so a stored identity can
outlive its original date range). -/
def rowDrifted : EventRow :=
  ⟨1, generate_event_id (ymdToOrdinal 2026 1 20) (ymdToOrdinal 2026 1 22) 1, 0,
   ymdToOrdinal 2026 1 10, ymdToOrdinal 2026 1 12, 6, "High"⟩

def trendRowA : EventRow :=
  ⟨1, "aaa000000000", 0, ymdToOrdinal 2026 1 17, ymdToOrdinal 2026 1 17, 4, "Low"⟩

def trendRowB : EventRow :=
  ⟨1, "aaa000000000", 86400, ymdToOrdinal 2026 1 16, ymdToOrdinal 2026 1 17,
   51/10, "Moderate"⟩

/-- The single event produced by `payloadHalfDays` at the Jan 13 as-of with
an empty store (best 0.9 in over Jan 15–16). -/
def eventHalfDays : SnowEvent :=
  { event_id := "ccfdb59b5e66"
    start_date := 739631
    end_date := 739632
    start_datetime := ⟨739631, 0, 0, 0, 0⟩
    end_datetime := ⟨739632, 23, 59, 59, 0⟩
    snow_total_low := 3/5
    snow_total_high := 6/5
    snow_total_best := 9/10
    snow_by_date := [("2026-01-15", 9/20), ("2026-01-16", 9/20)]
    duration_hours := 36
    has_ice := false
    has_wind := false
    sources := ["gridpoint"]
    confidence := .high
    lead_time_hours := 48
    first_detected := ⟨739629, 0, 0, 0, 0⟩
    detection_count := 1
    key_details := "" }

/-- C6: the Confidence Classifier returns Very High iff `hours ≤ 36`, High iff
`37 ≤ hours ≤ 60`, Moderate iff `61 ≤ hours ≤ 96`, Low iff `97 ≤ hours ≤ 144`,
Very Low iff `hours > 144`; in particular 36 ↦ Very High, 37 ↦ High,
144 ↦ Low, 145 ↦ Very Low. -/
theorem confidence_classifier_tiers :
    (∀ hours : Nat,
      (get_confidence_for_lead_time hours = .veryHigh ↔ hours ≤ 36) ∧
      (get_confidence_for_lead_time hours = .high ↔ 37 ≤ hours ∧ hours ≤ 60) ∧
      (get_confidence_for_lead_time hours = .moderate ↔ 61 ≤ hours ∧ hours ≤ 96) ∧
      (get_confidence_for_lead_time hours = .low ↔ 97 ≤ hours ∧ hours ≤ 144) ∧
      (get_confidence_for_lead_time hours = .veryLow ↔ 144 < hours)) ∧
    get_confidence_for_lead_time 36 = .veryHigh ∧
    get_confidence_for_lead_time 37 = .high ∧
    get_confidence_for_lead_time 144 = .low ∧
    get_confidence_for_lead_time 145 = .veryLow := by
  refine ⟨fun hours => ?_, rfl, rfl, rfl, rfl⟩
  unfold get_confidence_for_lead_time
  split_ifs with h1 h2 h3 h4 <;> refine ⟨?_, ?_, ?_, ?_, ?_⟩ <;> simp <;> omega

/-- C7: on a chronologically ordered snapshot history of one identity, the
Trend Analyzer returns the explicit insufficient-data result when there are
fewer than 2 rows (and only then); otherwise, with
`change = latest.snow_best - first.snow_best`, it reports that change value
and direction `increasing` iff `change > 1`, `decreasing` iff `change < -1`,
and `steady` otherwise. -/
theorem trend_analyzer_rule (history : List EventRow) :
    (history.length < 2 → get_event_trend history = .insufficientData) ∧
    ((get_event_trend history).direction = "insufficient_data" ↔
      history.length < 2) ∧
    (∀ hne : history ≠ [], 2 ≤ history.length →
      ∀ change : ℚ,
        change = (history.getLast hne).snow_best - (history.head hne).snow_best →
        (get_event_trend history).changeVal = some change ∧
        ((get_event_trend history).direction = "increasing" ↔ 1 < change) ∧
        ((get_event_trend history).direction = "decreasing" ↔ change < -1) ∧
        ((get_event_trend history).direction = "steady" ↔
          -1 ≤ change ∧ change ≤ 1)) := by
  refine ⟨fun h => by simp [get_event_trend, h], ?_, ?_⟩
  · by_cases hlen : history.length < 2
    · simp [get_event_trend, hlen, TrendResult.direction]
    · cases history with
      | nil => simp at hlen
      | cons first rest =>
        have hne : first :: rest ≠ [] := by simp
        simp only [get_event_trend, if_neg hlen,
          List.getLast?_eq_getLast _ hne, Option.getD_some, TrendResult.direction]
        constructor
        · intro h
          split_ifs at h <;> simp_all
        · intro h
          exact absurd h hlen
  · intro hne h2 change hchg
    cases history with
    | nil => exact absurd rfl hne
    | cons first rest =>
      have hlen : ¬(first :: rest).length < 2 := not_lt.mpr h2
      have hgl : (first :: rest).getLast? = some ((first :: rest).getLast hne) :=
        List.getLast?_eq_getLast _ hne
      have hhead : (first :: rest).head hne = first := rfl
      rw [hhead] at hchg
      simp only [get_event_trend, if_neg hlen, hgl, Option.getD_some,
        TrendResult.direction, TrendResult.changeVal]
      subst hchg
      refine ⟨rfl, ?_, ?_, ?_⟩
      · split_ifs with ha hb
        · exact iff_of_true rfl ha
        · exact iff_of_false (by decide) ha
        · exact iff_of_false (by decide) ha
      · split_ifs with ha hb
        · exact iff_of_false (by decide) (by linarith)
        · exact iff_of_true rfl hb
        · exact iff_of_false (by decide) hb
      · split_ifs with ha hb
        · exact iff_of_false (by decide) (fun h => absurd ha (not_lt.mpr h.2))
        · exact iff_of_false (by decide) (fun h => absurd hb (not_lt.mpr h.1))
        · exact iff_of_true rfl ⟨not_lt.mp hb, not_lt.mp ha⟩

/-- C7 witness: the empty history yields the insufficient-data result, and
the concrete two-row history with best amounts 4 and 5.1 reports change 1.1
and direction `increasing`. -/
theorem trend_analyzer_rule_witness :
    get_event_trend ([] : List EventRow) = .insufficientData ∧
    (get_event_trend [trendRowA, trendRowB]).changeVal = some (11/10) ∧
    (get_event_trend [trendRowA, trendRowB]).direction = "increasing" := by
  refine ⟨(trend_analyzer_rule []).1 (by decide), ?_, ?_⟩
  · exact ((trend_analyzer_rule [trendRowA, trendRowB]).2.2 (by decide) (by decide)
      (11/10) (by with_unfolding_all decide)).1
  · exact ((trend_analyzer_rule [trendRowA, trendRowB]).2.2 (by decide) (by decide)
      (11/10) (by with_unfolding_all decide)).2.1.mpr (by with_unfolding_all decide)

/-- C8 (amended): on a narrative with a hedge phrase followed by a single
number with an inch unit and no explicit numeric range, the detection
pipeline's extractor (`snow_events.py`) returns `(0.8·X, 1.2·X)` — its hedge
pattern captures a single group, hitting the ±20 % branch — while the
`storm_analysis.py` extractor of the same name returns `(X-1, X+1)`. -/
theorem hedge_phrase_amounts (text : String) :
    (searchPos (matchRangeAt unitInch) (strLower text).data = none →
      ∀ x : ℚ, searchPos (matchAroundAt unitInch) (strLower text).data = some x →
        extract_snow_amounts_from_text text =
          (some (x * (4/5)), some (x * (6/5)))) ∧
    (searchPos (matchRangeAt unitInchOrQuote) (strLower text).data = none →
      ∀ x : ℚ,
        searchPos (matchAroundAt unitInchOrQuote) (strLower text).data = some x →
        StormAnalysis.extract_snow_amounts_from_text text =
          (some (x - 1), some (x + 1))) := by
  constructor
  · intro hrange x haround
    have hne : text ≠ "" := by
      intro h
      subst h
      rw [show (strLower "").data = [] from rfl] at haround
      simp [searchPos, matchAroundAt] at haround
    rw [extract_snow_amounts_from_text, if_neg hne]
    simp only [hrange, haround]
  · intro hrange x haround
    have hne : text ≠ "" := by
      intro h
      subst h
      rw [show (strLower "").data = [] from rfl] at haround
      simp [searchPos, matchAroundAt] at haround
    rw [StormAnalysis.extract_snow_amounts_from_text, if_neg hne]
    simp only [hrange, haround]

/-- C8 counterexample: on `"around 8 inches"` the detection pipeline's
extractor returns `(6.4, 9.6)`, not the claimed `(8-1, 8+1) = (7, 9)`. -/
theorem hedge_phrase_counterexample :
    extract_snow_amounts_from_text "around 8 inches" ≠ (some 7, some 9) ∧
    extract_snow_amounts_from_text "around 8 inches" =
      (some (32/5), some (48/5)) := by
  constructor <;> with_unfolding_all decide

/-- C8 witness: the amended behavior at the concrete hedge narrative
`"around 8 inches"` for both extractors. -/
theorem hedge_phrase_amounts_witness :
    extract_snow_amounts_from_text "around 8 inches" =
      (some ((8 : ℚ) * (4/5)), some ((8 : ℚ) * (6/5))) ∧
    StormAnalysis.extract_snow_amounts_from_text "around 8 inches" =
      (some ((8 : ℚ) - 1), some ((8 : ℚ) + 1)) :=
  ⟨(hedge_phrase_amounts "around 8 inches").1 (by with_unfolding_all decide) 8
      (by with_unfolding_all decide),
   (hedge_phrase_amounts "around 8 inches").2 (by with_unfolding_all decide) 8
      (by with_unfolding_all decide)⟩

/-- Helper: `find?` returns the first element satisfying the predicate. -/
theorem find_first_in_append {α : Type} (p : α → Bool) :
    ∀ (pre : List α) (r : α) (post : List α),
      (∀ x ∈ pre, p x = false) → p r = true →
      (pre ++ r :: post).find? p = some r := by
  intro pre
  induction pre with
  | nil => intro r post _ hr; simp [List.find?_cons, hr]
  | cons a t ih =>
    intro r post hpre hr
    have ha : p a = false := hpre a (by simp)
    simp only [List.cons_append, List.find?_cons, ha]
    exact ih r post (fun x hx => hpre x (by simp [hx])) hr

/-- C1 (amended): if some stored event for the location inside the lookback
window overlaps the candidate range by at least one day, the resolver
returns the first such stored identity in the store's result order; if none
overlaps, the lookup is empty and the minted identity is the deterministic
MD5-prefix hash of `(location_id, start_date, end_date)` — so identical
location and dates always mint the same identity, and in the spec's
disjoint-range scenario the minted identity differs from the stored one.
(Distinctness from *every* stored identity does not hold in general: see the
counterexample, where a stored row carries the hash of the candidate's own
key with a drifted, disjoint date range.) -/
theorem event_identity_resolution (store : List EventRow) (now location_id : Int)
    (start_date end_date : Date) :
    (∀ (pre : List EventRow) (r : EventRow) (post : List EventRow),
      queryRecentEvents store now location_id 7 = pre ++ r :: post →
      (∀ x ∈ pre, overlapsCandidate start_date end_date x = false) →
      overlapsCandidate start_date end_date r = true →
      find_matching_event_id store now location_id start_date end_date =
        some r.event_id) ∧
    ((∀ r ∈ queryRecentEvents store now location_id 7,
        overlapsCandidate start_date end_date r = false) →
      find_matching_event_id store now location_id start_date end_date = none ∧
      resolveEventId store now location_id start_date end_date =
        generate_event_id start_date end_date location_id) ∧
    (∀ r : EventRow, overlapsCandidate start_date end_date r = true ↔
      1 ≤ min end_date r.end_date - max start_date r.start_date + 1) ∧
    generate_event_id start_date end_date location_id =
      strTake (md5Hexdigest (toString location_id ++ "-" ++ isoDate start_date ++
        "-" ++ isoDate end_date)) 12 ∧
    generate_event_id (ymdToOrdinal 2026 1 10) (ymdToOrdinal 2026 1 12) 1 ≠
      generate_event_id (ymdToOrdinal 2026 1 20) (ymdToOrdinal 2026 1 22) 1 := by
  refine ⟨?_, ?_, ?_, rfl, by decide⟩
  · intro pre r post hquery hpre hr
    unfold find_matching_event_id
    rw [hquery, find_first_in_append _ pre r post hpre hr]
    rfl
  · intro hnone
    have hfind : find_matching_event_id store now location_id start_date end_date
        = none := by
      unfold find_matching_event_id
      rw [List.find?_eq_none.mpr (fun x hx => by simp [hnone x hx])]
      rfl
    exact ⟨hfind, by rw [resolveEventId, hfind]⟩
  · intro r
    simp [overlapsCandidate]

/-- C1 counterexample: with the stored row `rowDrifted` — identity
`hash(1, Jan 20, Jan 22)` whose stored range has drifted to
`[Jan 10, Jan 12]` — the disjoint candidate `[Jan 20, Jan 22]` finds no
overlap and mints an identity *equal* to the stored one, refuting
"candidates with disjoint ranges get an identity distinct from every stored
one". -/
theorem minted_identity_collision :
    overlapsCandidate (ymdToOrdinal 2026 1 20) (ymdToOrdinal 2026 1 22)
      rowDrifted = false ∧
    find_matching_event_id [rowDrifted] 0 1 (ymdToOrdinal 2026 1 20)
      (ymdToOrdinal 2026 1 22) = none ∧
    resolveEventId [rowDrifted] 0 1 (ymdToOrdinal 2026 1 20)
      (ymdToOrdinal 2026 1 22) = rowDrifted.event_id := by
  refine ⟨by decide, ?_, ?_⟩ <;> with_unfolding_all decide

/-- C1 witness: on the spec's drift scenario the stored identity is reused
(stored `[Jan 10, Jan 12]`, candidate `[Jan 11, Jan 13]`), and on the
disjoint candidate `[Jan 20, Jan 22]` a fresh hash identity is minted. -/
theorem event_identity_resolution_witness :
    find_matching_event_id [rowJan10to12] 0 1 (ymdToOrdinal 2026 1 11)
      (ymdToOrdinal 2026 1 13) = some rowJan10to12.event_id ∧
    resolveEventId [rowJan10to12] 0 1 (ymdToOrdinal 2026 1 20)
      (ymdToOrdinal 2026 1 22) =
      generate_event_id (ymdToOrdinal 2026 1 20) (ymdToOrdinal 2026 1 22) 1 :=
  ⟨(event_identity_resolution [rowJan10to12] 0 1 (ymdToOrdinal 2026 1 11)
      (ymdToOrdinal 2026 1 13)).1 [] rowJan10to12 []
      (by with_unfolding_all rfl) (by simp) (by decide),
   ((event_identity_resolution [rowJan10to12] 0 1 (ymdToOrdinal 2026 1 20)
      (ymdToOrdinal 2026 1 22)).2.1
      (by with_unfolding_all decide)).2⟩

/-- C5 (amended): the resolver and the history query read the system clock
for the lookback cutoff (`datetime.now()` in the source, the explicit `now`
argument here), so identical runs agree only when the clock moves no row
across the 7-day window boundary; under that hypothesis the outputs are
identical. -/
theorem resolver_clock_dependence (store : List EventRow)
    (t1 t2 location_id : Int) (start_date end_date : Date) (eid : String) :
    (∀ r ∈ store, r.location_id = location_id →
      (t1 - 7 * 86400 ≤ r.detected_at ↔ t2 - 7 * 86400 ≤ r.detected_at)) →
    find_matching_event_id store t1 location_id start_date end_date =
      find_matching_event_id store t2 location_id start_date end_date ∧
    get_event_history store t1 location_id eid =
      get_event_history store t2 location_id eid := by
  intro hwin
  constructor
  · simp only [find_matching_event_id, queryRecentEvents]
    have h : store.filter (fun r => r.location_id == location_id &&
        decide (t1 - 7 * 86400 ≤ r.detected_at)) =
        store.filter (fun r => r.location_id == location_id &&
          decide (t2 - 7 * 86400 ≤ r.detected_at)) := by
      refine List.filter_congr fun r hr => ?_
      by_cases hloc : r.location_id = location_id
      · rw [decide_eq_decide.mpr (hwin r hr hloc)]
      · have hb : (r.location_id == location_id) = false := by simpa using hloc
        simp [hb]
    rw [h]
  · simp only [get_event_history]
    have h : store.filter (fun r => r.location_id == location_id &&
        (r.event_id == eid) && decide (t1 - 7 * 86400 ≤ r.detected_at)) =
        store.filter (fun r => r.location_id == location_id &&
          (r.event_id == eid) && decide (t2 - 7 * 86400 ≤ r.detected_at)) := by
      refine List.filter_congr fun r hr => ?_
      by_cases hloc : r.location_id = location_id
      · rw [decide_eq_decide.mpr (hwin r hr hloc)]
      · have hb : (r.location_id == location_id) = false := by simpa using hloc
        simp [hb]
    rw [h]

/-- C5 counterexample: two resolver runs with identical store contents,
location and candidate dates but different system clocks disagree — with a
late clock the stored row ages out of the 7-day window and no identity is
reused. -/
theorem resolver_clock_counterexample :
    find_matching_event_id [rowJan10to12] 0 1 (ymdToOrdinal 2026 1 11)
      (ymdToOrdinal 2026 1 13) = some "aaa000000000" ∧
    find_matching_event_id [rowJan10to12] 1000000000 1 (ymdToOrdinal 2026 1 11)
      (ymdToOrdinal 2026 1 13) = none := by
  constructor <;> with_unfolding_all rfl

/-- C5 witness: with the clock moved by 100 seconds (no row crossing the
window boundary) the resolver and the history query give identical
results. -/
theorem resolver_clock_dependence_witness :
    find_matching_event_id [rowJan10to12] 0 1 (ymdToOrdinal 2026 1 11)
      (ymdToOrdinal 2026 1 13) =
      find_matching_event_id [rowJan10to12] 100 1 (ymdToOrdinal 2026 1 11)
        (ymdToOrdinal 2026 1 13) ∧
    get_event_history [rowJan10to12] 0 1 "aaa000000000" =
      get_event_history [rowJan10to12] 100 1 "aaa000000000" :=
  resolver_clock_dependence [rowJan10to12] 0 100 1 (ymdToOrdinal 2026 1 11)
    (ymdToOrdinal 2026 1 13) "aaa000000000" (by decide)

/-- Helper: membership in the sorted deduplicated date list. -/
theorem mem_sortedDates (l : List Date) (d : Date) :
    d ∈ sortedDates l ↔ d ∈ l := by
  unfold sortedDates
  rw [(List.perm_insertionSort _ _).mem_iff, List.mem_dedup]

/-- Helper: when a merged day qualifies. -/
theorem mergeDay_isSome_iff (gp : List (Date × GpDay)) (tx : List (Date × TxDay))
    (thr : ℚ) (d : Date) :
    (mergeDay gp tx thr d).isSome ↔
      thr ≤ mergedSnowTotal gp tx d ∨ mergedSnowLow gp tx d ≠ 0 := by
  simp only [mergeDay]
  split_ifs with h <;> simp [h]

/-- Helper: float truthiness of the merged low bound. -/
theorem mergedSnowLow_ne_zero_iff (gp : List (Date × GpDay))
    (tx : List (Date × TxDay)) (d : Date) :
    mergedSnowLow gp tx d ≠ 0 ↔
      ((∃ t, tx.lookup d = some t ∧ t.low ≠ 0) ∨
       (tx.lookup d = none ∧ mergedSnowTotal gp tx d ≠ 0)) := by
  unfold mergedSnowLow
  cases htx : tx.lookup d with
  | none =>
    constructor
    · intro h
      refine Or.inr ⟨rfl, fun h0 => h ?_⟩
      show mergedSnowTotal gp tx d * (7/10) = 0
      rw [h0]
      ring
    · rintro (⟨t, ht, _⟩ | ⟨_, h0⟩)
      · exact Option.noConfusion ht
      · exact mul_ne_zero h0 (by norm_num)
  | some t =>
    constructor
    · intro h
      exact Or.inl ⟨t, rfl, h⟩
    · rintro (⟨t2, ht2, hlow⟩ | ⟨hnone, _⟩)
      · cases ht2
        exact hlow
      · exact Option.noConfusion hnone

/-- C4 (amended): a calendar day present in either source and on or after
the as-of date is retained by the Daily Signal Merger iff its merged total
reaches the threshold, or the day has a text signal whose low bound is
nonzero, or the day has no text signal at all and its merged total is
nonzero (the `tx.get('low', snow_total * 0.7)` fallback is truthy for any
positive gridpoint total, so a gridpoint-only day below the threshold is
*retained*, not dropped). -/
theorem daily_merge_qualification (gp : List (Date × GpDay))
    (tx : List (Date × TxDay)) (as_of_date : Date) (thr : ℚ) (d : Date) :
    d ∈ (buildDailyData gp tx as_of_date thr).map Prod.fst ↔
      (d ∈ (gp.map Prod.fst ++ tx.map Prod.fst) ∧ as_of_date ≤ d ∧
        (thr ≤ mergedSnowTotal gp tx d ∨
         (∃ t, tx.lookup d = some t ∧ t.low ≠ 0) ∨
         (tx.lookup d = none ∧ mergedSnowTotal gp tx d ≠ 0))) := by
  rw [← mergedSnowLow_ne_zero_iff, ← mem_sortedDates (gp.map Prod.fst ++ tx.map Prod.fst) d]
  unfold buildDailyData
  constructor
  · intro hmem
    obtain ⟨p, hp, hp1⟩ := List.mem_map.mp hmem
    obtain ⟨a, ha, hFa⟩ := List.mem_filterMap.mp hp
    by_cases hlt : a < as_of_date
    · rw [if_pos hlt] at hFa
      exact absurd hFa (by simp)
    · rw [if_neg hlt] at hFa
      obtain ⟨rec, hrec, hprec⟩ := Option.map_eq_some'.mp hFa
      have had : a = d := by rw [← hp1, ← hprec]
      subst had
      refine ⟨ha, not_lt.mp hlt, ?_⟩
      have : (mergeDay gp tx thr a).isSome := by rw [hrec]; rfl
      exact (mergeDay_isSome_iff gp tx thr a).mp this
  · rintro ⟨hmem, hge, hqual⟩
    obtain ⟨rec, hrec⟩ := Option.isSome_iff_exists.mp
      ((mergeDay_isSome_iff gp tx thr d).mpr hqual)
    refine List.mem_map.mpr ⟨(d, rec), List.mem_filterMap.mpr ⟨d, hmem, ?_⟩, rfl⟩
    rw [if_neg (not_lt.mpr hge), hrec]
    rfl

/-- C4 counterexample: a day whose only signal is a 0.3-inch gridpoint total
(below the 0.5 threshold, no text-derived low bound) is *retained* for
segmentation, contradicting the claim that it is dropped. -/
theorem gridpoint_only_day_retained :
    (buildDailyData gpPoint3 txPoint3 asOfJan13.ordinal (1/2)).map Prod.fst =
      [ymdToOrdinal 2026 1 15] ∧
    mergedSnowTotal gpPoint3 txPoint3 (ymdToOrdinal 2026 1 15) = 3/10 ∧
    ((3 : ℚ)/10 < 1/2) ∧
    txPoint3.lookup (ymdToOrdinal 2026 1 15) = none := by
  refine ⟨?_, ?_, by norm_num, ?_⟩ <;> with_unfolding_all rfl

/-- Helper: rounding to the nearest tenth preserves the 0.5 threshold. -/
theorem ratRound1_half {q : ℚ} (h : 1/2 ≤ q) : 1/2 ≤ ratRound1 q := by
  unfold ratRound1
  rw [round_eq]
  have h1 : (5 : ℚ) ≤ q * 10 + 1/2 := by linarith
  have h2 : (5 : ℤ) ≤ ⌊q * 10 + 1/2⌋ := Int.le_floor.mpr (by exact_mod_cast h1)
  have h3 : (5 : ℚ) ≤ (⌊q * 10 + 1/2⌋ : ℚ) := by exact_mod_cast h2
  linarith

/-- Helper: rounding to the nearest tenth preserves the 1.0 threshold. -/
theorem ratRound1_one {q : ℚ} (h : 1 ≤ q) : 1 ≤ ratRound1 q := by
  unfold ratRound1
  rw [round_eq]
  have h1 : (10 : ℚ) ≤ q * 10 + 1/2 := by linarith
  have h2 : (10 : ℤ) ≤ ⌊q * 10 + 1/2⌋ := Int.le_floor.mpr (by exact_mod_cast h1)
  have h3 : (10 : ℚ) ≤ (⌊q * 10 + 1/2⌋ : ℚ) := by exact_mod_cast h2
  linarith

/-- Helper: an event emitted by `create_event_from_dates` survived the noise
guard, so its rounded best or high total clears the respective threshold. -/
theorem create_event_noise_ok (run : List Date) (daily : List (Date × DayRecord))
    (as_of : DateTime) (loc : Int) (store : List EventRow) (now : Int)
    (e : SnowEvent) :
    create_event_from_dates run daily as_of loc store now = some e →
    1/2 ≤ e.snow_total_best ∨ 1 ≤ e.snow_total_high := by
  cases run with
  | nil => intro h; simp [create_event_from_dates] at h
  | cons d0 drest =>
    simp only [create_event_from_dates]
    split_ifs with hg
    · intro h; cases h
    · intro h
      injection h with h
      subst h
      cases not_and_or.mp hg with
      | inl h1 => exact Or.inl (ratRound1_half (not_lt.mp h1))
      | inr h1 => exact Or.inr (ratRound1_one (not_lt.mp h1))

/-- C2: no event emitted by a detection pass has both
`snow_total_best < 0.5` and `snow_total_high < 1.0`: a candidate run whose
summed best estimate is below 0.5 in and summed high estimate below 1.0 in
is discarded before emission. -/
theorem noise_filter_invariant (payload : ForecastPayload)
    (as_of_datetime : DateTime) (location_id : Int) (store : List EventRow)
    (now : Int) (thr : ℚ) :
    ∀ e ∈ identify_snow_events payload as_of_datetime location_id store now thr,
      ¬(e.snow_total_best < 1/2 ∧ e.snow_total_high < 1) := by
  intro e he
  simp only [identify_snow_events] at he
  obtain ⟨run, _, hcreate⟩ := List.mem_filterMap.mp he
  rcases create_event_noise_ok run _ _ _ _ _ _ hcreate with h | h
  · exact fun hc => absurd h (not_le.mpr hc.1)
  · exact fun hc => absurd h (not_le.mpr hc.2)

/-- C2 witness: the 0.9-inch two-day event of `payloadHalfDays` is emitted
and clears the noise filter. -/
theorem noise_filter_invariant_witness :
    ¬(eventHalfDays.snow_total_best < 1/2 ∧ eventHalfDays.snow_total_high < 1) :=
  noise_filter_invariant payloadHalfDays asOfJan13 1 [] 0 (1/2) eventHalfDays
    (by rw [show identify_snow_events payloadHalfDays asOfJan13 1 [] 0 (1/2) =
          [eventHalfDays] from by with_unfolding_all rfl]
        exact List.mem_singleton_self _)

/-- Helper: the runs flatten back to the walked dates. -/
theorem segmentAux_flatten (ds : List Date) :
    ∀ (init : List Date) (last : Date),
      (segmentAux init last ds).flatten = init ++ last :: ds := by
  induction ds with
  | nil => intro init last; simp [segmentAux]
  | cons d rest ih =>
    intro init last
    simp only [segmentAux]
    split_ifs with h
    · rw [ih (init ++ [last]) d]
      simp
    · simp only [List.flatten_cons, ih [] d]
      simp

theorem segmentRuns_flatten (ds : List Date) : (segmentRuns ds).flatten = ds := by
  cases ds with
  | nil => rfl
  | cons d rest => simpa using segmentAux_flatten rest [] d

/-- Helper: every emitted run is nonempty. -/
theorem segmentAux_ne_nil (ds : List Date) :
    ∀ init last, ∀ r ∈ segmentAux init last ds, r ≠ [] := by
  induction ds with
  | nil =>
    intro init last r hr
    simp only [segmentAux, List.mem_singleton] at hr
    subst hr
    simp
  | cons d rest ih =>
    intro init last r hr
    simp only [segmentAux] at hr
    split_ifs at hr with h
    · exact ih _ _ r hr
    · rcases List.mem_cons.mp hr with h1 | h1
      · subst h1; simp
      · exact ih _ _ r h1

/-- Helper: on a strictly sorted input, any member of an earlier run is at
least two days before any member of a later run. -/
theorem segmentAux_pairwise_gap (ds : List Date) :
    ∀ init last, List.Sorted (· < ·) (init ++ last :: ds) →
      List.Pairwise (fun r1 r2 => ∀ a ∈ r1, ∀ b ∈ r2, a + 2 ≤ b)
        (segmentAux init last ds) := by
  induction ds with
  | nil => intro init last _; simp [segmentAux]
  | cons d rest ih =>
    intro init last hsorted
    have hsub : List.Sublist (d :: rest) (init ++ last :: d :: rest) :=
      (List.Sublist.cons last (List.Sublist.refl (d :: rest))).trans
        (List.sublist_append_right init (last :: d :: rest))
    simp only [segmentAux]
    split_ifs with h
    · apply ih (init ++ [last]) d
      simpa [List.append_assoc] using hsorted
    · rw [List.pairwise_cons]
      constructor
      · intro r' hr' a ha b hb
        have hale : a ≤ last := by
          rcases List.mem_append.mp ha with h1 | h1
          · exact le_of_lt
              ((List.pairwise_append.mp hsorted).2.2 a h1 last (by simp))
          · simp only [List.mem_singleton] at h1
            subst h1
            exact le_refl _
        have hbmem : b ∈ ([] : List Date) ++ d :: rest := by
          rw [← segmentAux_flatten rest [] d]
          exact List.mem_flatten.mpr ⟨r', hr', hb⟩
        have hdb : d ≤ b := by
          simp only [List.nil_append] at hbmem
          rcases List.mem_cons.mp hbmem with h1 | h1
          · subst h1; exact le_refl _
          · have hs2 : List.Sorted (· < ·) (d :: rest) :=
              List.Pairwise.sublist hsub hsorted
            exact le_of_lt ((List.sorted_cons.mp hs2).1 b h1)
        have hgap : (1 : Int) + 1 ≤ d - last :=
          Int.lt_iff_add_one_le.mp (not_le.mp h)
        linarith
      · apply ih [] d
        simpa using List.Pairwise.sublist hsub hsorted

theorem segmentRuns_pairwise_gap (ds : List Date)
    (h : List.Sorted (· < ·) ds) :
    List.Pairwise (fun r1 r2 => ∀ a ∈ r1, ∀ b ∈ r2, a + 2 ≤ b)
      (segmentRuns ds) := by
  cases ds with
  | nil => exact List.Pairwise.nil
  | cons d rest => exact segmentAux_pairwise_gap rest [] d (by simpa using h)

/-- Helper: each run of a sorted input is itself sorted. -/
theorem segmentRuns_sorted_runs (ds : List Date) (h : List.Sorted (· < ·) ds) :
    ∀ r ∈ segmentRuns ds, List.Sorted (· < ·) r := by
  intro r hr
  have hinf : List.IsInfix r (segmentRuns ds).flatten :=
    List.infix_of_mem_flatten hr
  rw [segmentRuns_flatten] at hinf
  exact List.Pairwise.sublist hinf.sublist h

/-- C3: the segmenter walks the sorted qualifying dates, extending the
current run while the gap to the previous date is at most one day and
closing it otherwise (the final run included, so the runs flatten back to
the input); consequently two qualifying days form one run iff their gap is
at most 1 day and two separate runs iff it exceeds 1 day. -/
theorem segmentation_gap_law :
    (∀ d1 d2 : Date, d1 < d2 →
      ((d2 - d1 ≤ 1 → segmentRuns [d1, d2] = [[d1, d2]]) ∧
       (1 < d2 - d1 → segmentRuns [d1, d2] = [[d1], [d2]]))) ∧
    (∀ ds : List Date, (segmentRuns ds).flatten = ds) := by
  refine ⟨fun d1 d2 _ => ⟨fun h => ?_, fun h => ?_⟩, segmentRuns_flatten⟩
  · show segmentAux [] d1 [d2] = [[d1, d2]]
    simp only [segmentAux]
    rw [if_pos h]
    rfl
  · show segmentAux [] d1 [d2] = [[d1], [d2]]
    have hcond : ¬(d2 - d1 ≤ 1) := not_le.mpr h
    simp only [segmentAux]
    rw [if_neg hcond]
    rfl

/-- C3 witness: consecutive days Jan 15/16 form one run; Jan 15 and Jan 18
(gap 3 days) form two runs. -/
theorem segmentation_gap_law_witness :
    segmentRuns [739631, 739632] = [[739631, 739632]] ∧
    segmentRuns [739631, 739634] = [[739631], [739634]] :=
  ⟨(segmentation_gap_law.1 739631 739632 (by decide)).1 (by decide),
   (segmentation_gap_law.1 739631 739634 (by decide)).2 (by decide)⟩

/-- Helper: a fold of `min` lands on an element of `a :: l`. -/
theorem foldl_min_mem : ∀ (l : List Int) (a : Int), l.foldl min a ∈ a :: l := by
  intro l
  induction l with
  | nil => intro a; simp
  | cons x xs ih =>
    intro a
    rcases List.mem_cons.mp (ih (min a x)) with h1 | h1
    · rw [List.foldl_cons, h1]
      rcases min_choice a x with hm | hm
      · rw [hm]; exact List.mem_cons_self a _
      · rw [hm]; exact List.mem_cons_of_mem a (List.mem_cons_self x _)
    · rw [List.foldl_cons]
      exact List.mem_cons_of_mem a (List.mem_cons_of_mem x h1)

/-- Helper: a fold of `max` lands on an element of `a :: l`. -/
theorem foldl_max_mem : ∀ (l : List Int) (a : Int), l.foldl max a ∈ a :: l := by
  intro l
  induction l with
  | nil => intro a; simp
  | cons x xs ih =>
    intro a
    rcases List.mem_cons.mp (ih (max a x)) with h1 | h1
    · rw [List.foldl_cons, h1]
      rcases max_choice a x with hm | hm
      · rw [hm]; exact List.mem_cons_self a _
      · rw [hm]; exact List.mem_cons_of_mem a (List.mem_cons_self x _)
    · rw [List.foldl_cons]
      exact List.mem_cons_of_mem a (List.mem_cons_of_mem x h1)

/-- Helper: a fold of `min` is at most the seed. -/
theorem foldl_min_le_seed : ∀ (l : List Int) (a : Int), l.foldl min a ≤ a := by
  intro l
  induction l with
  | nil => intro a; exact le_refl a
  | cons x xs ih =>
    intro a
    exact le_trans (ih (min a x)) (min_le_left a x)

/-- Helper: the seed is at most a fold of `max`. -/
theorem seed_le_foldl_max : ∀ (l : List Int) (a : Int), a ≤ l.foldl max a := by
  intro l
  induction l with
  | nil => intro a; exact le_refl a
  | cons x xs ih =>
    intro a
    exact le_trans (le_max_left a x) (ih (max a x))

/-- Helper: an emitted event's start and end dates belong to its run and are
correctly ordered. -/
theorem create_event_some_bounds (run : List Date)
    (daily : List (Date × DayRecord)) (as_of : DateTime) (loc : Int)
    (store : List EventRow) (now : Int) (e : SnowEvent) :
    create_event_from_dates run daily as_of loc store now = some e →
    e.start_date ∈ run ∧ e.end_date ∈ run ∧ e.start_date ≤ e.end_date := by
  cases run with
  | nil => intro h; simp [create_event_from_dates] at h
  | cons d0 drest =>
    simp only [create_event_from_dates]
    split_ifs with hg
    · intro h; cases h
    · intro h
      injection h with h
      subst h
      refine ⟨foldl_min_mem drest d0, foldl_max_mem drest d0,
        le_trans (foldl_min_le_seed drest d0) (seed_le_foldl_max drest d0)⟩

/-- Helper: the merged daily records are keyed by strictly ascending dates. -/
theorem sorted_sortedDates (l : List Date) :
    List.Sorted (· < ·) (sortedDates l) := by
  unfold sortedDates
  have hle : List.Sorted (· ≤ ·) (l.dedup.insertionSort (· ≤ ·)) :=
    List.sorted_insertionSort _ _
  have hnd : (l.dedup.insertionSort (· ≤ ·)).Nodup :=
    ((List.perm_insertionSort _ _).nodup_iff).mpr (List.nodup_dedup l)
  exact hle.lt_of_le hnd

theorem buildDailyData_keys_sublist (gp : List (Date × GpDay))
    (tx : List (Date × TxDay)) (as_of_date : Date) (thr : ℚ) :
    List.Sublist ((buildDailyData gp tx as_of_date thr).map Prod.fst)
      (sortedDates (gp.map Prod.fst ++ tx.map Prod.fst)) := by
  unfold buildDailyData
  generalize sortedDates (gp.map Prod.fst ++ tx.map Prod.fst) = l
  induction l with
  | nil => simp
  | cons d t ih =>
    rw [List.filterMap_cons]
    cases hF : (if d < as_of_date then none
        else (mergeDay gp tx thr d).map fun rec => (d, rec)) with
    | none => exact List.Sublist.cons d ih
    | some p =>
      have hp1 : p.1 = d := by
        by_cases hlt : d < as_of_date
        · rw [if_pos hlt] at hF; cases hF
        · rw [if_neg hlt] at hF
          obtain ⟨rec, _, hrec⟩ := Option.map_eq_some'.mp hF
          rw [← hrec]
      rw [List.map_cons, hp1]
      exact List.Sublist.cons₂ d ih

/-- Helper: shape of the event list produced from sorted daily records. -/
theorem events_of_sorted_daily (daily : List (Date × DayRecord))
    (as_of : DateTime) (loc : Int) (store : List EventRow) (now : Int)
    (hsorted : List.Sorted (· < ·) (daily.map Prod.fst)) :
    (∀ e ∈ (segmentRuns (daily.map Prod.fst)).filterMap
        (fun run => create_event_from_dates run daily as_of loc store now),
      e.start_date ≤ e.end_date) ∧
    List.Pairwise (fun e1 e2 => e1.end_date + 2 ≤ e2.start_date)
      ((segmentRuns (daily.map Prod.fst)).filterMap
        (fun run => create_event_from_dates run daily as_of loc store now)) ∧
    List.Pairwise (fun e1 e2 => e1.start_date < e2.start_date)
      ((segmentRuns (daily.map Prod.fst)).filterMap
        (fun run => create_event_from_dates run daily as_of loc store now)) := by
  have hmem : ∀ e ∈ (segmentRuns (daily.map Prod.fst)).filterMap
      (fun run => create_event_from_dates run daily as_of loc store now),
      e.start_date ≤ e.end_date := by
    intro e he
    obtain ⟨run, _, hc⟩ := List.mem_filterMap.mp he
    exact (create_event_some_bounds run daily as_of loc store now e hc).2.2
  have hpair : List.Pairwise (fun e1 e2 => e1.end_date + 2 ≤ e2.start_date)
      ((segmentRuns (daily.map Prod.fst)).filterMap
        (fun run => create_event_from_dates run daily as_of loc store now)) := by
    refine List.Pairwise.filterMap _ ?_
      (segmentRuns_pairwise_gap (daily.map Prod.fst) hsorted)
    intro r1 r2 hR e1 he1 e2 he2
    have hb1 := create_event_some_bounds r1 daily as_of loc store now e1 he1
    have hb2 := create_event_some_bounds r2 daily as_of loc store now e2 he2
    exact hR e1.end_date hb1.2.1 e2.start_date hb2.1
  refine ⟨hmem, hpair, ?_⟩
  refine hpair.imp_of_mem (fun {a b} hma _ hr => ?_)
  have h1 := hmem a hma
  linarith

/-- C10: every detection pass emits events with `start_date ≤ end_date`,
listed in strictly ascending `start_date` order, and any two emitted events
are separated by a dry gap of more than one day (each later event starts at
least two days after the earlier one ends). -/
theorem detection_output_ordering (payload : ForecastPayload)
    (as_of_datetime : DateTime) (location_id : Int) (store : List EventRow)
    (now : Int) (thr : ℚ) (out : List SnowEvent) :
    out = identify_snow_events payload as_of_datetime location_id store now thr →
    (∀ e ∈ out, e.start_date ≤ e.end_date) ∧
    List.Pairwise (fun e1 e2 => e1.end_date + 2 ≤ e2.start_date) out ∧
    List.Pairwise (fun e1 e2 => e1.start_date < e2.start_date) out := by
  intro hout
  subst hout
  have hkeys : List.Sorted (· < ·)
      ((buildDailyData
        (extract_snow_from_gridpoint_by_date payload.gridpoint as_of_datetime)
        (extract_snow_from_forecast_text payload.forecast as_of_datetime.ordinal)
        as_of_datetime.ordinal thr).map Prod.fst) :=
    List.Pairwise.sublist (buildDailyData_keys_sublist _ _ _ _)
      (sorted_sortedDates _)
  simpa only [identify_snow_events] using
    events_of_sorted_daily _ as_of_datetime location_id store now hkeys

/-- C10 witness: the two-storm payload (2 in on Jan 15, 3 in on Jan 20)
yields an output list satisfying the ordering and gap invariants. -/
theorem detection_output_ordering_witness :
    (∀ e ∈ identify_snow_events payloadTwoStorms asOfJan13 1 [] 0 (1/2),
      e.start_date ≤ e.end_date) ∧
    List.Pairwise (fun e1 e2 => e1.end_date + 2 ≤ e2.start_date)
      (identify_snow_events payloadTwoStorms asOfJan13 1 [] 0 (1/2)) ∧
    List.Pairwise (fun e1 e2 => e1.start_date < e2.start_date)
      (identify_snow_events payloadTwoStorms asOfJan13 1 [] 0 (1/2)) :=
  detection_output_ordering payloadTwoStorms asOfJan13 1 [] 0 (1/2) _ rfl

/-- Helper: a gridpoint entry with a missing value, a non-positive value or
an unparseable timestamp leaves the accumulated per-day totals unchanged. -/
theorem gpStep_malformed (entry : GridpointEntry)
    (h : entry.value = none ∨ (∃ v, entry.value = some v ∧ v ≤ 0) ∨
      parse_nws_datetime entry.validTime = none) :
    ∀ m, gpStep m entry = m := by
  intro m
  cases hval : entry.value with
  | none => simp [gpStep, hval]
  | some v =>
    rcases h with h1 | ⟨v', hv', hle⟩ | h1
    · rw [hval] at h1; cases h1
    · rw [hval] at hv'
      injection hv' with hv''
      subst hv''
      simp [gpStep, hval, hle]
    · by_cases hle : v ≤ 0
      · simp [gpStep, hval, hle]
      · simp [gpStep, hval, hle, h1]

/-- Helper: a narrative period with no snow mention or no resolvable date
leaves the accumulated per-day records unchanged. -/
theorem txStep_malformed (period : ForecastPeriod) (as_of_date : Date)
    (h : period.detailedForecast = "" ∨
      mentionsSnow period.detailedForecast = false ∨
      periodDate period as_of_date = none) :
    ∀ m, txStep as_of_date m period = m := by
  intro m
  have hsnow : mentionsSnow period.detailedForecast = false ∨
      periodDate period as_of_date = none := by
    rcases h with h1 | h1 | h1
    · exact Or.inl (by rw [h1]; rfl)
    · exact Or.inl h1
    · exact Or.inr h1
  rcases hsnow with h1 | h1
  · simp [txStep, h1]
  · by_cases h2 : mentionsSnow period.detailedForecast
    · simp [txStep, h2, h1]
    · simp [txStep, h2]

/-- C9: the extractors recover locally from malformed or absent fields: a
gridpoint entry with a missing or unparseable timestamp or a missing or
non-positive value contributes nothing to the per-day totals, a narrative
period with no narrative text, no snow mention or no resolvable date is
skipped, and in every case the extraction returns normally with the mapping
computed from the remaining entries alone. -/
theorem extractor_malformed_skipped :
    (∀ (pre : List GridpointEntry) (entry : GridpointEntry)
        (post : List GridpointEntry) (as_of : DateTime),
      (entry.value = none ∨ (∃ v, entry.value = some v ∧ v ≤ 0) ∨
        parse_nws_datetime entry.validTime = none) →
      extract_snow_from_gridpoint_by_date ⟨pre ++ entry :: post⟩ as_of =
        extract_snow_from_gridpoint_by_date ⟨pre ++ post⟩ as_of) ∧
    (∀ (pre : List ForecastPeriod) (period : ForecastPeriod)
        (post : List ForecastPeriod) (as_of_date : Date),
      (period.detailedForecast = "" ∨
        mentionsSnow period.detailedForecast = false ∨
        periodDate period as_of_date = none) →
      extract_snow_from_forecast_text ⟨pre ++ period :: post⟩ as_of_date =
        extract_snow_from_forecast_text ⟨pre ++ post⟩ as_of_date) := by
  constructor
  · intro pre entry post as_of h
    unfold extract_snow_from_gridpoint_by_date
    rw [List.foldl_append, List.foldl_append, List.foldl_cons,
      gpStep_malformed entry h]
  · intro pre period post as_of_date h
    unfold extract_snow_from_forecast_text
    rw [List.foldl_append, List.foldl_append, List.foldl_cons,
      txStep_malformed period as_of_date h]

/-- C9 witness: an entry with a missing value and an unparseable timestamp,
and a snow period whose date cannot be resolved, are skipped. -/
theorem extractor_malformed_skipped_witness :
    extract_snow_from_gridpoint_by_date ⟨[] ++ ⟨"garbage", none⟩ :: []⟩
        asOfJan13 =
      extract_snow_from_gridpoint_by_date ⟨[] ++ []⟩ asOfJan13 ∧
    extract_snow_from_forecast_text
        ⟨[] ++ ⟨"Xmas Day", "Snow likely", "", ""⟩ :: []⟩ asOfJan13.ordinal =
      extract_snow_from_forecast_text ⟨[] ++ []⟩ asOfJan13.ordinal :=
  ⟨extractor_malformed_skipped.1 [] ⟨"garbage", none⟩ [] asOfJan13 (Or.inl rfl),
   extractor_malformed_skipped.2 [] ⟨"Xmas Day", "Snow likely", "", ""⟩ []
     asOfJan13.ordinal (Or.inr (Or.inr (by with_unfolding_all rfl)))⟩

end WinterWx
